import Mathlib

/-!
Shallow embedding of `src/function_app.py`: a serverless HTTP API over a
Blob Store and a partitioned document store with two collections (media and
posts).  Each endpoint is modelled as a pure function from its request
inputs, a set of injected dependency-fault flags, and the document-store
state, to an outcome, the ordered list of store calls made, and the
document-store state afterwards.  Freshly generated UUIDs and the current
timestamp are passed in as parameters.  The Blob Store is modelled by its
call trace and injected outcomes; the document store is modelled by explicit
state, since several properties quantify over its contents.
-/

/-- Python truthiness of an optional string: `None` and `""` are falsy. -/
def pyTruthy : Option String → Bool
  | none => false
  | some s => !(s == "")

/-- A multipart file part as exposed by `req.files.get("file")`: filename,
content type, and the payload bytes returned by `file.stream.read()`. -/
structure FilePart where
  filename : String
  content_type : Option String
  bytes : List Nat
deriving DecidableEq, Repr

/-- A media document in the Cosmos media container.  `blobName` and
`contentType` are optional so that corrupt or partially-written records can
be represented (the code reads them with `.get` / subscript); `uploadMedia`
itself always writes both. -/
structure MediaDoc where
  id : String
  userId : String
  fileName : String
  contentType : Option String
  sizeBytes : Nat
  blobName : Option String
  uploadedAt : String
deriving DecidableEq, Repr

/-- The media snapshot embedded in a post by `createPost`. -/
structure MediaRef where
  mediaId : String
  blobName : String
  contentType : Option String
deriving DecidableEq, Repr

/-- A post document in the Cosmos post container.  `userId` and `title` are
optional because `createPost` copies them from the body with `.get`, which
yields null when absent. -/
structure PostDoc where
  id : String
  userId : Option String
  title : Option String
  caption : String
  media : List MediaRef
  createdAt : String
deriving DecidableEq, Repr

/-- The document store: the media container and the post container. -/
structure Store where
  media : List MediaDoc
  posts : List PostDoc
deriving DecidableEq, Repr

/-- Whether a partition-key argument matches a document's `userId` partition
value.  A missing (`None`) partition key matches no stored document. -/
def pkMatches (pk : Option String) (u : String) : Bool :=
  match pk with
  | some v => u == v
  | none => false

/-- Cosmos point read in the media container:
`read_item(item=id, partition_key=pk)` succeeds exactly on a document with
this id in this partition. -/
def Store.readMedia (s : Store) (id : String) (pk : Option String) : Option MediaDoc :=
  s.media.find? (fun d => d.id == id && pkMatches pk d.userId)

/-- Whether a media id is owned by the given user: the scoped point read
finds a document. -/
def ownedBy (s : Store) (pk : Option String) (m : String) : Bool :=
  (s.readMedia m pk).isSome

/-- Abstract HTTP response body; JSON serialization itself is not modelled. -/
inductive Body where
  | empty
  | text (s : String)
  | mediaItem (d : MediaDoc)
  | post (d : PostDoc)
  | posts (l : List PostDoc)
  | mediaList (l : List MediaDoc)
deriving DecidableEq, Repr

/-- An HTTP response as built by the handler. -/
structure Response where
  status : Nat
  body : Body
deriving DecidableEq, Repr

/-- Either a response returned by the handler, or an unhandled exception,
surfaced by the hosting runtime as a generic 500. -/
inductive Outcome where
  | resp (r : Response)
  | fault
deriving DecidableEq, Repr

/-- One call made against an external collaborator (Blob Store or document
store), in program order; reads and attempted writes are both recorded. -/
inductive Event where
  | blobPut (key : String) (bytes : List Nat) (contentType : Option String)
  | blobDel (key : String)
  | mediaRead (id : String) (pk : Option String)
  | mediaUpsert (d : MediaDoc)
  | mediaDel (id : String) (pk : String)
  | postCreate (d : PostDoc)
  | postDel (id : String) (pk : String)
  | postQueryUser (pk : String)
  | postQueryAll
  | mediaQueryUser (pk : String)
deriving DecidableEq, Repr

/-- Result of handling one request: the outcome, the store calls made in
order, and the document-store state afterwards. -/
structure StepResult where
  outcome : Outcome
  calls : List Event
  store : Store
deriving DecidableEq, Repr

/-- Injected dependency failures for `uploadMedia`: the blob upload and the
document upsert. -/
structure UploadFaults where
  blobPutFault : Bool
  upsertFault : Bool
deriving DecidableEq, Repr

/-- Cosmos upsert in the media container: replace the document with the same
id in the same partition, or append the new document. -/
def Store.upsertMedia (s : Store) (d : MediaDoc) : Store :=
  if s.media.any (fun e => e.id == d.id && e.userId == d.userId) then
    { s with media := s.media.map (fun e => if e.id == d.id && e.userId == d.userId then d else e) }
  else
    { s with media := s.media ++ [d] }

/-- Embedding of `uploadMedia` (function_app.py lines 21-59).  `media_id` is
the freshly generated uuid and `now` the current UTC timestamp.  `not
user_id or not file` rejects a missing or empty `userId` and a missing file
part with 400 before any store call. -/
def uploadMedia (user_id : Option String) (file : Option FilePart)
    (media_id now : String) (f : UploadFaults) (s : Store) : StepResult :=
  match user_id, file with
  | some uid, some fl =>
    if uid == "" then
      ⟨.resp ⟨400, .text ("Missing userId or file")⟩, [], s⟩
    else
      let blob_name := uid ++ "/" ++ media_id ++ "-" ++ fl.filename
      let putEv := Event.blobPut blob_name fl.bytes fl.content_type
      if f.blobPutFault then ⟨.fault, [putEv], s⟩
      else if f.upsertFault then ⟨.fault, [putEv, .mediaUpsert (MediaDoc.mk media_id uid fl.filename fl.content_type fl.bytes.length (some blob_name) now)], s⟩
      else
        let doc : MediaDoc :=
          { id := media_id, userId := uid, fileName := fl.filename,
            contentType := fl.content_type, sizeBytes := fl.bytes.length,
            blobName := some blob_name, uploadedAt := now }
        ⟨.resp ⟨201, .mediaItem doc⟩, [putEv, .mediaUpsert doc], s.upsertMedia doc⟩
  | _, _ => ⟨.resp ⟨400, .text ("Missing userId or file")⟩, [], s⟩

/-- Result of the media-validation loop in `createPost`. -/
inductive LoopResult where
  | refs (rs : List MediaRef)
  | notFound (m : String)
  | keyError
deriving DecidableEq, Repr

/-- The `for m in media` loop of `createPost` (lines 77-87): point read each
referenced id in the user's partition; any exception from the read returns
404 naming the id; the subscript `media_doc["blobName"]` sits outside that
handler and raises KeyError when the field is missing. -/
def mediaLoop (s : Store) (pk : Option String) : List String → LoopResult × List Event
  | [] => (.refs [], [])
  | m :: rest =>
    match s.readMedia m pk with
    | none => (.notFound m, [.mediaRead m pk])
    | some doc =>
      match doc.blobName with
      | none => (.keyError, [.mediaRead m pk])
      | some bn =>
        let ref : MediaRef := { mediaId := doc.id, blobName := bn, contentType := doc.contentType }
        match mediaLoop s pk rest with
        | (.refs rs, evs) => (.refs (ref :: rs), .mediaRead m pk :: evs)
        | (r, evs) => (r, .mediaRead m pk :: evs)

/-- Parsed JSON body of `createPost`; every field is read with `.get`, so any
of them may be absent. -/
structure PostBody where
  userId : Option String
  title : Option String
  caption : Option String
  media : Option (List String)
deriving DecidableEq, Repr

/-- Embedding of `createPost` (lines 61-106).  `body` is `none` when the
request body is not valid JSON; `post_id` is the fresh uuid and `now` the
timestamp; `createFault` injects a dependency failure of `create_item`,
which also raises (unhandled) when a document with the same id already
exists in the partition. -/
def createPost (body : Option PostBody) (post_id now : String)
    (createFault : Bool) (s : Store) : StepResult :=
  match body with
  | none => ⟨.resp ⟨400, .text ("Invalid JSON body")⟩, [], s⟩
  | some b =>
    match mediaLoop s b.userId (b.media.getD []) with
    | (.notFound m, evs) =>
      ⟨.resp ⟨404, .text ("media not found or not owned by user: " ++ m)⟩, evs, s⟩
    | (.keyError, evs) => ⟨.fault, evs, s⟩
    | (.refs media_refs, evs) =>
      let post_doc : PostDoc :=
        { id := post_id, userId := b.userId, title := b.title,
          caption := b.caption.getD "", media := media_refs, createdAt := now }
      if createFault then ⟨.fault, evs ++ [.postCreate post_doc], s⟩
      else if s.posts.any (fun p => p.id == post_id && p.userId == b.userId) then
        ⟨.fault, evs ++ [.postCreate post_doc], s⟩
      else
        ⟨.resp ⟨201, .post post_doc⟩, evs ++ [.postCreate post_doc],
          { s with posts := s.posts ++ [post_doc] }⟩

/-- Lexicographic comparison of character lists by code point, realising the
order the document store applies to the ISO-8601 timestamp strings in
`ORDER BY` (for these strings lexicographic order is chronological order). -/
def strLeB : List Char → List Char → Bool
  | [], _ => true
  | _ :: _, [] => false
  | a :: as, b :: bs =>
    if a.toNat < b.toNat then true
    else if b.toNat < a.toNat then false
    else strLeB as bs

/-- Lexicographic order on strings, by code point. -/
def strLe (a b : String) : Prop := strLeB a.data b.data = true

instance : DecidableRel strLe := fun a b => inferInstanceAs (Decidable (strLeB a.data b.data = true))

theorem strLeB_total : ∀ as bs : List Char, strLeB as bs = true ∨ strLeB bs as = true
  | [], _ => Or.inl rfl
  | _ :: _, [] => Or.inr rfl
  | a :: as, b :: bs => by
    rcases Nat.lt_trichotomy a.toNat b.toNat with h | h | h
    · exact Or.inl (by simp [strLeB, h])
    · rcases strLeB_total as bs with ih | ih
      · exact Or.inl (by simp [strLeB, h, ih])
      · exact Or.inr (by simp [strLeB, h.symm, ih])
    · exact Or.inr (by simp [strLeB, h])

theorem strLeB_trans : ∀ as bs cs : List Char,
    strLeB as bs = true → strLeB bs cs = true → strLeB as cs = true
  | [], _, _, _, _ => rfl
  | _ :: _, [], _, h1, _ => by simp [strLeB] at h1
  | _ :: _, _ :: _, [], _, h2 => by simp [strLeB] at h2
  | a :: as, b :: bs, c :: cs, h1, h2 => by
    by_cases hab : a.toNat < b.toNat
    · by_cases hbc : b.toNat < c.toNat
      · simp [strLeB, show a.toNat < c.toNat by omega]
      · by_cases hcb : c.toNat < b.toNat
        · simp [strLeB, hbc, hcb] at h2
        · simp [strLeB, show a.toNat < c.toNat by omega]
    · by_cases hba : b.toNat < a.toNat
      · simp [strLeB, hab, hba] at h1
      · have hab' : a.toNat = b.toNat := by omega
        by_cases hbc : b.toNat < c.toNat
        · simp [strLeB, show a.toNat < c.toNat by omega]
        · by_cases hcb : c.toNat < b.toNat
          · simp [strLeB, hbc, hcb] at h2
          · simp [strLeB, hab, hba] at h1
            simp [strLeB, hbc, hcb] at h2
            simp [strLeB, show ¬ a.toNat < c.toNat by omega,
              show ¬ c.toNat < a.toNat by omega, strLeB_trans as bs cs h1 h2]

/-- Descending `createdAt` order on posts, realising `ORDER BY c.createdAt DESC`. -/
def createdAtDesc (a b : PostDoc) : Prop := strLe b.createdAt a.createdAt

instance : DecidableRel createdAtDesc := fun a b => inferInstanceAs (Decidable (strLe b.createdAt a.createdAt))

instance : IsTotal PostDoc createdAtDesc :=
  ⟨fun a b => (strLeB_total b.createdAt.data a.createdAt.data).imp (fun h => h) (fun h => h)⟩

instance : IsTrans PostDoc createdAtDesc :=
  ⟨fun _ _ _ h1 h2 => strLeB_trans _ _ _ h2 h1⟩

/-- Descending `uploadedAt` order on media, realising `ORDER BY c.uploadedAt DESC`. -/
def uploadedAtDesc (a b : MediaDoc) : Prop := strLe b.uploadedAt a.uploadedAt

instance : DecidableRel uploadedAtDesc := fun a b => inferInstanceAs (Decidable (strLe b.uploadedAt a.uploadedAt))

/-- Embedding of `getPosts` (lines 109-130): partition-scoped query ordered
by `createdAt` descending. -/
def getPosts (user_id : Option String) (s : Store) : StepResult :=
  match user_id with
  | some uid =>
    if uid == "" then ⟨.resp ⟨400, .text ("Missing userId")⟩, [], s⟩
    else
      let items := (s.posts.filter (fun p => p.userId == some uid)).insertionSort createdAtDesc
      ⟨.resp ⟨200, .posts items⟩, [.postQueryUser uid], s⟩
  | none => ⟨.resp ⟨400, .text ("Missing userId")⟩, [], s⟩

/-- Embedding of `getAllPosts` (lines 133-148): cross-partition query ordered
by `createdAt` descending. -/
def getAllPosts (s : Store) : StepResult :=
  ⟨.resp ⟨200, .posts (s.posts.insertionSort createdAtDesc)⟩, [.postQueryAll], s⟩

/-- Embedding of `getUserMedia` (lines 151-171): partition-scoped query
ordered by `uploadedAt` descending. -/
def getUserMedia (user_id : Option String) (s : Store) : StepResult :=
  match user_id with
  | some uid =>
    if uid == "" then ⟨.resp ⟨400, .text ("Missing userId")⟩, [], s⟩
    else
      let items := (s.media.filter (fun d => d.userId == uid)).insertionSort uploadedAtDesc
      ⟨.resp ⟨200, .mediaList items⟩, [.mediaQueryUser uid], s⟩
  | none => ⟨.resp ⟨400, .text ("Missing userId")⟩, [], s⟩

/-- Embedding of `deletePost` (lines 174-190).  `depFault` injects a document
store dependency failure of `delete_item`; the handler catches every
exception (`except Exception`) and answers 404. -/
def deletePost (user_id post_id : Option String) (depFault : Bool) (s : Store) : StepResult :=
  match user_id, post_id with
  | some uid, some pid =>
    if uid == "" || pid == "" then
      ⟨.resp ⟨400, .text ("Missing userId or postId")⟩, [], s⟩
    else if depFault then
      ⟨.resp ⟨404, .text ("Post not found")⟩, [.postDel pid uid], s⟩
    else if s.posts.any (fun p => p.id == pid && p.userId == some uid) then
      ⟨.resp ⟨204, .empty⟩, [.postDel pid uid],
        { s with posts := s.posts.filter (fun p => !(p.id == pid && p.userId == some uid)) }⟩
    else
      ⟨.resp ⟨404, .text ("Post not found")⟩, [.postDel pid uid], s⟩
  | _, _ => ⟨.resp ⟨400, .text ("Missing userId or postId")⟩, [], s⟩

/-- Injected dependency failures for `deleteMedia`: the document point read,
the blob delete and the document delete. -/
structure DeleteMediaFaults where
  readFault : Bool
  blobDelFault : Bool
  docDelFault : Bool
deriving DecidableEq, Repr

/-- Embedding of `deleteMedia` (lines 193-228): point read (any failure →
404), falsy `blobName` → 500, blob delete failure → 500 leaving the document
in place, document delete failure → 500, otherwise 204 with empty body. -/
def deleteMedia (user_id media_id : Option String) (f : DeleteMediaFaults) (s : Store) : StepResult :=
  match user_id, media_id with
  | some uid, some mid =>
    if uid == "" || mid == "" then
      ⟨.resp ⟨400, .text ("missing userId or mediaId")⟩, [], s⟩
    else if f.readFault then
      ⟨.resp ⟨404, .text ("media not found")⟩, [.mediaRead mid (some uid)], s⟩
    else
      match s.readMedia mid (some uid) with
      | none => ⟨.resp ⟨404, .text ("media not found")⟩, [.mediaRead mid (some uid)], s⟩
      | some doc =>
        if !(pyTruthy doc.blobName) then
          ⟨.resp ⟨500, .text ("media record missing blobname")⟩, [.mediaRead mid (some uid)], s⟩
        else if f.blobDelFault then
          ⟨.resp ⟨500, .text ("failed to delete media blob")⟩,
            [.mediaRead mid (some uid), .blobDel (doc.blobName.getD "")], s⟩
        else if f.docDelFault then
          ⟨.resp ⟨500, .text ("failed to delete cosmos document")⟩,
            [.mediaRead mid (some uid), .blobDel (doc.blobName.getD ""), .mediaDel mid uid], s⟩
        else
          ⟨.resp ⟨204, .empty⟩,
            [.mediaRead mid (some uid), .blobDel (doc.blobName.getD ""), .mediaDel mid uid],
            { s with media := s.media.filter (fun d => !(d.id == mid && d.userId == uid)) }⟩
  | _, _ => ⟨.resp ⟨400, .text ("missing userId or mediaId")⟩, [], s⟩

/-! Helper lemmas about the document-store state after a point delete. -/

theorem posts_any_remove (ps : List PostDoc) (pid uid : String) :
    (ps.filter (fun p => !(p.id == pid && p.userId == some uid))).any
      (fun p => p.id == pid && p.userId == some uid) = false := by
  rw [List.any_eq_false]
  intro p hp
  rw [List.mem_filter] at hp
  rcases hp with ⟨_, hkeep⟩
  simp only [Bool.not_eq_true'] at hkeep
  simp [hkeep]

theorem readMedia_remove (ml : List MediaDoc) (ps : List PostDoc) (mid uid : String) :
    (Store.mk (ml.filter (fun d => !(d.id == mid && d.userId == uid))) ps).readMedia
      mid (some uid) = none := by
  simp only [Store.readMedia, List.find?_eq_none, List.mem_filter]
  rintro d ⟨_, hkeep⟩
  simp only [Bool.not_eq_true'] at hkeep
  simp only [pkMatches]
  intro hcontra
  rw [Bool.and_comm] at hcontra
  rw [Bool.and_comm] at hkeep
  simp only [Bool.and_eq_true, beq_iff_eq] at hcontra hkeep
  rcases hcontra with ⟨h1, h2⟩
  simp [h1, h2] at hkeep

theorem deletePost_404_of_any_false (uid pid : String)
    (hv : (uid == "" || pid == "") = false) (df : Bool) (s : Store)
    (h : s.posts.any (fun p => p.id == pid && p.userId == some uid) = false) :
    (deletePost (some uid) (some pid) df s).outcome
      = .resp ⟨404, .text ("Post not found")⟩ := by
  cases df <;> simp [deletePost, hv, h]

theorem deleteMedia_404_of_read_none (uid mid : String)
    (hv : (uid == "" || mid == "") = false) (f : DeleteMediaFaults) (s : Store)
    (h : s.readMedia mid (some uid) = none) :
    (deleteMedia (some uid) (some mid) f s).outcome
      = .resp ⟨404, .text ("media not found")⟩ := by
  cases hrf : f.readFault <;> simp [deleteMedia, hv, hrf, h]

/-! Concrete demonstration inputs used by the witnesses below. -/

def demoMedia : MediaDoc :=
  { id := "m1", userId := "u1", fileName := "a.png", contentType := some ("image/png"),
    sizeBytes := 1, blobName := some ("u1/m1-a.png"), uploadedAt := "2024-01-01T00:00:00" }

def demoStore : Store := { media := [demoMedia], posts := [] }

def demoPost : PostDoc :=
  { id := "p1", userId := some ("u1"), title := some ("T"), caption := "",
    media := [], createdAt := "2024-01-02T00:00:00" }

def demoPostStore : Store := { media := [], posts := [demoPost] }

/-- C1: deleteMedia follows the linear sequence: failed point read → 404;
document found without a blobName → 500 with no deletion attempted; blob
delete failure → 500 with the media document left unchanged; blob delete ok
but document delete failure → 500; both deletes ok → 204 with empty body. -/
theorem deleteMedia_linear_sequence (uid mid : String) (huid : uid ≠ "") (hmid : mid ≠ "")
    (f : DeleteMediaFaults) (s : Store) :
    ((f.readFault = true ∨ s.readMedia mid (some uid) = none) →
      (deleteMedia (some uid) (some mid) f s).outcome = .resp ⟨404, .text ("media not found")⟩ ∧
      (deleteMedia (some uid) (some mid) f s).store = s) ∧
    (∀ doc, f.readFault = false → s.readMedia mid (some uid) = some doc → doc.blobName = none →
      (deleteMedia (some uid) (some mid) f s).outcome
        = .resp ⟨500, .text ("media record missing blobname")⟩ ∧
      (deleteMedia (some uid) (some mid) f s).calls = [.mediaRead mid (some uid)] ∧
      (deleteMedia (some uid) (some mid) f s).store = s) ∧
    (∀ doc, f.readFault = false → s.readMedia mid (some uid) = some doc →
      pyTruthy doc.blobName = true → f.blobDelFault = true →
      (deleteMedia (some uid) (some mid) f s).outcome
        = .resp ⟨500, .text ("failed to delete media blob")⟩ ∧
      (deleteMedia (some uid) (some mid) f s).store = s) ∧
    (∀ doc, f.readFault = false → s.readMedia mid (some uid) = some doc →
      pyTruthy doc.blobName = true → f.blobDelFault = false → f.docDelFault = true →
      (deleteMedia (some uid) (some mid) f s).outcome
        = .resp ⟨500, .text ("failed to delete cosmos document")⟩ ∧
      (deleteMedia (some uid) (some mid) f s).store = s) ∧
    (∀ doc, f.readFault = false → s.readMedia mid (some uid) = some doc →
      pyTruthy doc.blobName = true → f.blobDelFault = false → f.docDelFault = false →
      (deleteMedia (some uid) (some mid) f s).outcome = .resp ⟨204, .empty⟩ ∧
      (deleteMedia (some uid) (some mid) f s).store
        = { s with media := s.media.filter (fun d => !(d.id == mid && d.userId == uid)) }) := by
  refine ⟨?_, ?_, ?_, ?_, ?_⟩
  · rintro (h | h)
    · simp [deleteMedia, huid, hmid, h]
    · cases hrf : f.readFault
      · simp [deleteMedia, huid, hmid, hrf, h]
      · simp [deleteMedia, huid, hmid, hrf]
  · intro doc hrf hread hbn
    simp [deleteMedia, huid, hmid, hrf, hread, pyTruthy, hbn]
  · intro doc hrf hread hbn hbf
    simp [deleteMedia, huid, hmid, hrf, hread, hbn, hbf]
  · intro doc hrf hread hbn hbf hdf
    simp [deleteMedia, huid, hmid, hrf, hread, hbn, hbf, hdf]
  · intro doc hrf hread hbn hbf hdf
    simp [deleteMedia, huid, hmid, hrf, hread, hbn, hbf, hdf]

theorem deleteMedia_linear_sequence_witness :
    ("u1" : String) ≠ "" ∧
    (deleteMedia (some ("u1")) (some ("m1")) ⟨false, false, false⟩ demoStore).outcome
      = .resp ⟨204, .empty⟩ :=
  ⟨by decide,
    ((deleteMedia_linear_sequence "u1" "m1" (by decide) (by decide)
      ⟨false, false, false⟩ demoStore).2.2.2.2 demoMedia rfl (by decide) (by decide)
      rfl rfl).1⟩

/-- C4: a valid upload (non-empty userId, present file, no store failure)
returns 201 with a MediaItem whose blobName is userId/id-fileName and whose
sizeBytes is the payload length, and the blob write precedes the document
write in the call sequence. -/
theorem uploadMedia_blobname_size (uid : String) (huid : uid ≠ "") (fl : FilePart)
    (media_id now : String) (s : Store) :
    ∃ doc : MediaDoc,
      (uploadMedia (some uid) (some fl) media_id now ⟨false, false⟩ s).outcome
        = .resp ⟨201, .mediaItem doc⟩ ∧
      doc.blobName = some (uid ++ "/" ++ media_id ++ "-" ++ fl.filename) ∧
      doc.sizeBytes = fl.bytes.length ∧
      doc.id = media_id ∧ doc.userId = uid ∧
      (uploadMedia (some uid) (some fl) media_id now ⟨false, false⟩ s).calls
        = [.blobPut (uid ++ "/" ++ media_id ++ "-" ++ fl.filename) fl.bytes fl.content_type,
           .mediaUpsert doc] := by
  refine ⟨{ id := media_id, userId := uid, fileName := fl.filename,
            contentType := fl.content_type, sizeBytes := fl.bytes.length,
            blobName := some (uid ++ "/" ++ media_id ++ "-" ++ fl.filename),
            uploadedAt := now }, ?_, rfl, rfl, rfl, rfl, ?_⟩
  · simp [uploadMedia, huid]
  · simp [uploadMedia, huid]

theorem uploadMedia_blobname_size_witness :
    ∃ doc : MediaDoc,
      (uploadMedia (some ("u1")) (some ⟨"a.png", some ("image/png"), [88]⟩)
        "m1" "t0" ⟨false, false⟩ ⟨[], []⟩).outcome = .resp ⟨201, .mediaItem doc⟩ ∧
      doc.blobName = some (("u1" : String) ++ "/" ++ "m1" ++ "-" ++ "a.png") ∧
      doc.sizeBytes = ([88] : List Nat).length ∧
      doc.id = "m1" ∧ doc.userId = "u1" ∧
      (uploadMedia (some ("u1")) (some ⟨"a.png", some ("image/png"), [88]⟩)
        "m1" "t0" ⟨false, false⟩ ⟨[], []⟩).calls
        = [.blobPut (("u1" : String) ++ "/" ++ "m1" ++ "-" ++ "a.png") [88] (some ("image/png")),
           .mediaUpsert doc] :=
  uploadMedia_blobname_size "u1" (by decide) ⟨"a.png", some ("image/png"), [88]⟩ "m1" "t0" ⟨[], []⟩

/-- C6 counterexample: with the target post present in the store and an
injected Document Store dependency failure of the point delete, deletePost
answers 404 — not a generic 500, and not only in the not-found case — because
its handler catches every exception. -/
theorem deletePost_depfail_cex :
    demoPostStore.posts.any (fun p => p.id == "p1" && p.userId == some ("u1")) = true ∧
    (deletePost (some ("u1")) (some ("p1")) true demoPostStore).outcome
      = .resp ⟨404, .text ("Post not found")⟩ := by
  decide

/-- C6 amended: deletePost answers 404 whenever the point delete raises any
exception — not-found and dependency failures alike — and 204 exactly when
the delete succeeds; a dependency failure never surfaces as an unhandled
fault. -/
theorem deletePost_catch_all_404 (uid pid : String) (huid : uid ≠ "") (hpid : pid ≠ "")
    (df : Bool) (s : Store) :
    ((deletePost (some uid) (some pid) df s).outcome = .resp ⟨204, .empty⟩ ↔
      df = false ∧ s.posts.any (fun p => p.id == pid && p.userId == some uid) = true) ∧
    ((deletePost (some uid) (some pid) df s).outcome = .resp ⟨404, .text ("Post not found")⟩ ↔
      (df = true ∨ s.posts.any (fun p => p.id == pid && p.userId == some uid) = false)) ∧
    (deletePost (some uid) (some pid) df s).outcome ≠ .fault := by
  cases df <;> cases hany : s.posts.any (fun p => p.id == pid && p.userId == some uid) <;>
    simp [deletePost, huid, hpid, hany]

theorem deletePost_catch_all_404_witness :
    (deletePost (some ("u1")) (some ("p1")) false demoPostStore).outcome
      = .resp ⟨204, .empty⟩ :=
  (deletePost_catch_all_404 "u1" "p1" (by decide) (by decide) false demoPostStore).1.mpr
    (by decide)

/-- C8: after a first successful deletePost or deleteMedia call (204, entity
deleted), a second call with the same user id and entity id answers 404, not
204, whatever the store faults of the second call. -/
theorem delete_second_call_404 (uid i : String) (s : Store) (df1 : Bool)
    (f1 : DeleteMediaFaults) :
    ((deletePost (some uid) (some i) df1 s).outcome = .resp ⟨204, .empty⟩ →
      ∀ df2, (deletePost (some uid) (some i) df2
          ((deletePost (some uid) (some i) df1 s).store)).outcome
        = .resp ⟨404, .text ("Post not found")⟩) ∧
    ((deleteMedia (some uid) (some i) f1 s).outcome = .resp ⟨204, .empty⟩ →
      ∀ f2, (deleteMedia (some uid) (some i) f2
          ((deleteMedia (some uid) (some i) f1 s).store)).outcome
        = .resp ⟨404, .text ("media not found")⟩) := by
  constructor
  · intro h204 df2
    by_cases hv : (uid == "" || i == "") = true
    · simp [deletePost, hv] at h204
    · simp only [Bool.not_eq_true] at hv
      cases df1
      · cases hany : s.posts.any (fun p => p.id == i && p.userId == some uid)
        · simp [deletePost, hv, hany] at h204
        · have hst : (deletePost (some uid) (some i) false s).store
              = { s with posts := s.posts.filter (fun p => !(p.id == i && p.userId == some uid)) } := by
            simp [deletePost, hv, hany]
          exact deletePost_404_of_any_false uid i hv df2 _
            (by rw [hst]; exact posts_any_remove s.posts i uid)
      · simp [deletePost, hv] at h204
  · intro h204 f2
    by_cases hv : (uid == "" || i == "") = true
    · simp [deleteMedia, hv] at h204
    · simp only [Bool.not_eq_true] at hv
      cases hrf : f1.readFault
      · cases hread : s.readMedia i (some uid) with
        | none => simp [deleteMedia, hv, hrf, hread] at h204
        | some doc =>
          cases htr : pyTruthy doc.blobName
          · simp [deleteMedia, hv, hrf, hread, htr] at h204
          · cases hbf : f1.blobDelFault
            · cases hdf : f1.docDelFault
              · have hst : (deleteMedia (some uid) (some i) f1 s).store
                    = { s with media := s.media.filter (fun d => !(d.id == i && d.userId == uid)) } := by
                  simp [deleteMedia, hv, hrf, hread, htr, hbf, hdf]
                exact deleteMedia_404_of_read_none uid i hv f2 _
                  (by rw [hst]; exact readMedia_remove s.media s.posts i uid)
              · simp [deleteMedia, hv, hrf, hread, htr, hbf, hdf] at h204
            · simp [deleteMedia, hv, hrf, hread, htr, hbf] at h204
      · simp [deleteMedia, hv, hrf] at h204

theorem delete_second_call_404_witness :
    (deletePost (some ("u1")) (some ("p1")) false demoPostStore).outcome
      = .resp ⟨204, .empty⟩ ∧
    (deletePost (some ("u1")) (some ("p1")) false
        ((deletePost (some ("u1")) (some ("p1")) false demoPostStore).store)).outcome
      = .resp ⟨404, .text ("Post not found")⟩ :=
  ⟨by decide,
    (delete_second_call_404 "u1" "p1" demoPostStore false ⟨false, false, false⟩).1
      (by decide) false⟩

/-- C10: every endpoint with required query or form parameters treats an
empty-string value exactly like an absent one: the truthiness check answers
400 with no Blob Store or Document Store call made and the store unchanged,
and the result coincides with the absent-parameter call. -/
theorem empty_param_like_absent (s : Store) :
    (∀ file media_id now f, uploadMedia (some ("")) file media_id now f s
        = ⟨.resp ⟨400, .text ("Missing userId or file")⟩, [], s⟩
      ∧ uploadMedia (some ("")) file media_id now f s = uploadMedia none file media_id now f s) ∧
    (getPosts (some ("")) s = ⟨.resp ⟨400, .text ("Missing userId")⟩, [], s⟩
      ∧ getPosts (some ("")) s = getPosts none s) ∧
    (getUserMedia (some ("")) s = ⟨.resp ⟨400, .text ("Missing userId")⟩, [], s⟩
      ∧ getUserMedia (some ("")) s = getUserMedia none s) ∧
    (∀ pid df, deletePost (some ("")) pid df s
        = ⟨.resp ⟨400, .text ("Missing userId or postId")⟩, [], s⟩
      ∧ deletePost (some ("")) pid df s = deletePost none pid df s) ∧
    (∀ uid df, deletePost uid (some ("")) df s
        = ⟨.resp ⟨400, .text ("Missing userId or postId")⟩, [], s⟩
      ∧ deletePost uid (some ("")) df s = deletePost uid none df s) ∧
    (∀ mid f, deleteMedia (some ("")) mid f s
        = ⟨.resp ⟨400, .text ("missing userId or mediaId")⟩, [], s⟩
      ∧ deleteMedia (some ("")) mid f s = deleteMedia none mid f s) ∧
    (∀ uid f, deleteMedia uid (some ("")) f s
        = ⟨.resp ⟨400, .text ("missing userId or mediaId")⟩, [], s⟩
      ∧ deleteMedia uid (some ("")) f s = deleteMedia uid none f s) := by
  refine ⟨?_, ?_, ?_, ?_, ?_, ?_, ?_⟩
  · intro file media_id now f
    cases file <;> simp [uploadMedia]
  · simp [getPosts]
  · simp [getUserMedia]
  · intro pid df
    cases pid <;> simp [deletePost]
  · intro uid df
    cases uid <;> simp [deletePost]
  · intro mid f
    cases mid <;> simp [deleteMedia]
  · intro uid f
    cases uid <;> simp [deleteMedia]

/-! Demonstration posts for the query witnesses. -/

def demoPostA : PostDoc :=
  { id := "pA", userId := some ("u1"), title := some ("A"), caption := "",
    media := [], createdAt := "2024-01-01" }

def demoPostB : PostDoc :=
  { id := "pB", userId := some ("u1"), title := some ("B"), caption := "",
    media := [], createdAt := "2024-03-01" }

def demoPostC : PostDoc :=
  { id := "pC", userId := some ("u2"), title := some ("C"), caption := "",
    media := [], createdAt := "2024-02-01" }

def demoSortStore : Store := { media := [], posts := [demoPostA, demoPostB, demoPostC] }

/-- C5: getPosts answers 200 with exactly the stored posts of the given user
(the full filtered set, as a permutation of the partition filter), sorted by
createdAt descending, and getAllPosts answers 200 with all posts across
users in the same descending-createdAt order. -/
theorem getPosts_sorted_filtered (uid : String) (huid : uid ≠ "") (s : Store) :
    ∃ items : List PostDoc,
      getPosts (some uid) s = ⟨.resp ⟨200, .posts items⟩, [.postQueryUser uid], s⟩ ∧
      (∀ p ∈ items, p.userId = some uid) ∧
      items.Sorted createdAtDesc ∧
      items.Perm (s.posts.filter (fun p => p.userId == some uid)) ∧
      getAllPosts s
        = ⟨.resp ⟨200, .posts (s.posts.insertionSort createdAtDesc)⟩, [.postQueryAll], s⟩ ∧
      (s.posts.insertionSort createdAtDesc).Sorted createdAtDesc ∧
      (s.posts.insertionSort createdAtDesc).Perm s.posts := by
  refine ⟨(s.posts.filter (fun p => p.userId == some uid)).insertionSort createdAtDesc,
    ?_, ?_, ?_, ?_, rfl, ?_, ?_⟩
  · simp [getPosts, huid]
  · intro p hp
    rw [List.mem_insertionSort, List.mem_filter] at hp
    exact eq_of_beq hp.2
  · exact List.sorted_insertionSort createdAtDesc _
  · exact List.perm_insertionSort createdAtDesc _
  · exact List.sorted_insertionSort createdAtDesc _
  · exact List.perm_insertionSort createdAtDesc _

theorem getPosts_sorted_filtered_witness :
    ∃ items : List PostDoc,
      getPosts (some ("u1")) demoSortStore
        = ⟨.resp ⟨200, .posts items⟩, [.postQueryUser "u1"], demoSortStore⟩ ∧
      (∀ p ∈ items, p.userId = some ("u1")) ∧
      items.Sorted createdAtDesc ∧
      items.Perm (demoSortStore.posts.filter (fun p => p.userId == some ("u1"))) ∧
      getAllPosts demoSortStore
        = ⟨.resp ⟨200, .posts (demoSortStore.posts.insertionSort createdAtDesc)⟩,
           [.postQueryAll], demoSortStore⟩ ∧
      (demoSortStore.posts.insertionSort createdAtDesc).Sorted createdAtDesc ∧
      (demoSortStore.posts.insertionSort createdAtDesc).Perm demoSortStore.posts :=
  getPosts_sorted_filtered "u1" (by decide) demoSortStore

/-! Characterisation of the createPost media-validation loop. -/

/-- The MediaRef snapshot that createPost builds for one referenced media id
from the looked-up document. -/
def snapshotRef (s : Store) (pk : Option String) (m : String) : MediaRef :=
  match s.readMedia m pk with
  | some d => { mediaId := d.id, blobName := d.blobName.getD "", contentType := d.contentType }
  | none => { mediaId := m, blobName := "", contentType := none }

theorem mediaLoop_refs_of (s : Store) (pk : Option String) :
    ∀ l : List String,
      (∀ m ∈ l, ∃ d bn, s.readMedia m pk = some d ∧ d.blobName = some bn) →
      mediaLoop s pk l
        = (.refs (l.map (snapshotRef s pk)), l.map (fun m => Event.mediaRead m pk))
  | [], _ => rfl
  | m :: rest, h => by
    obtain ⟨d, bn, hd, hbn⟩ := h m (by simp)
    have ih := mediaLoop_refs_of s pk rest (fun x hx => h x (by simp [hx]))
    simp [mediaLoop, hd, hbn, ih, snapshotRef]

theorem mediaLoop_notFound_of (s : Store) (pk : Option String) :
    ∀ (pre : List String) (m : String) (rest : List String),
      (∀ x ∈ pre, ∃ d bn, s.readMedia x pk = some d ∧ d.blobName = some bn) →
      s.readMedia m pk = none →
      mediaLoop s pk (pre ++ m :: rest)
        = (.notFound m, pre.map (fun x => Event.mediaRead x pk) ++ [.mediaRead m pk])
  | [], m, rest, _, hm => by simp [mediaLoop, hm]
  | x :: xs, m, rest, hpre, hm => by
    obtain ⟨d, bn, hd, hbn⟩ := hpre x (by simp)
    have ih := mediaLoop_notFound_of s pk xs m rest (fun y hy => hpre y (by simp [hy])) hm
    simp [mediaLoop, hd, hbn, ih]

theorem mediaLoop_keyError_of (s : Store) (pk : Option String) :
    ∀ (pre : List String) (m : String) (rest : List String),
      (∀ x ∈ pre, ∃ d bn, s.readMedia x pk = some d ∧ d.blobName = some bn) →
      (∃ d, s.readMedia m pk = some d ∧ d.blobName = none) →
      mediaLoop s pk (pre ++ m :: rest)
        = (.keyError, pre.map (fun x => Event.mediaRead x pk) ++ [.mediaRead m pk])
  | [], m, rest, _, hm => by
    obtain ⟨d, hd, hbn⟩ := hm
    simp [mediaLoop, hd, hbn]
  | x :: xs, m, rest, hpre, hm => by
    obtain ⟨d, bn, hd, hbn⟩ := hpre x (by simp)
    have ih := mediaLoop_keyError_of s pk xs m rest (fun y hy => hpre y (by simp [hy])) hm
    simp [mediaLoop, hd, hbn, ih]

theorem mediaLoop_no_refs (s : Store) (pk : Option String) :
    ∀ (l : List String) (m : String), m ∈ l → s.readMedia m pk = none →
      ∀ rs, (mediaLoop s pk l).1 ≠ .refs rs := by
  intro l
  induction l with
  | nil => intro m hm; simp at hm
  | cons x xs ih =>
    intro m hm hnone rs
    cases hx : s.readMedia x pk with
    | none => simp [mediaLoop, hx]
    | some d =>
      cases hbn : d.blobName with
      | none => simp [mediaLoop, hx, hbn]
      | some bn =>
        have hmxs : m ∈ xs := by
          rcases List.mem_cons.mp hm with h | h
          · subst h; rw [hx] at hnone; cases hnone
          · exact h
        cases hml : mediaLoop s pk xs with
        | mk r evs =>
          cases r with
          | refs rs2 =>
            exact absurd (by rw [hml]) (ih m hmxs hnone rs2)
          | notFound m2 => simp [mediaLoop, hx, hbn, hml]
          | keyError => simp [mediaLoop, hx, hbn, hml]

theorem mediaLoop_calls_reads (s : Store) (pk : Option String) :
    ∀ l : List String, ∀ e ∈ (mediaLoop s pk l).2, ∃ i p, e = Event.mediaRead i p := by
  intro l
  induction l with
  | nil => intro e he; simp [mediaLoop] at he
  | cons m rest ih =>
    intro e he
    cases hx : s.readMedia m pk with
    | none =>
      simp [mediaLoop, hx] at he
      exact ⟨m, pk, he⟩
    | some d =>
      cases hbn : d.blobName with
      | none =>
        simp [mediaLoop, hx, hbn] at he
        exact ⟨m, pk, he⟩
      | some bn =>
        cases hml : mediaLoop s pk rest with
        | mk r evs =>
          have hevs : ∀ x ∈ evs, ∃ i p, x = Event.mediaRead i p := by
            intro x hx2
            apply ih
            rw [hml]
            exact hx2
          cases r with
          | refs rs =>
            simp [mediaLoop, hx, hbn, hml] at he
            rcases he with he | he
            · exact ⟨m, pk, he⟩
            · exact hevs e he
          | notFound m2 =>
            simp [mediaLoop, hx, hbn, hml] at he
            rcases he with he | he
            · exact ⟨m, pk, he⟩
            · exact hevs e he
          | keyError =>
            simp [mediaLoop, hx, hbn, hml] at he
            rcases he with he | he
            · exact ⟨m, pk, he⟩
            · exact hevs e he

/-! Concrete inputs exercising the corrupt-record corner of createPost. -/

def cexBadDoc : MediaDoc :=
  { id := "a", userId := "u1", fileName := "f", contentType := none,
    sizeBytes := 1, blobName := none, uploadedAt := "t" }

def cexStore : Store := { media := [cexBadDoc], posts := [] }

def cexBody : PostBody :=
  { userId := some ("u1"), title := some ("T"), caption := none, media := some (["a", "b"]) }

def cex3Body : PostBody :=
  { userId := some ("u1"), title := some ("T"), caption := none, media := some (["a"]) }

/-- C2 counterexample: the request references media id b, which is missing
from the media collection, yet the response is not 404: an earlier owned but
corrupt document (no blobName) makes the subscript raise first, so the
request dies as an unhandled fault (generic 500). -/
theorem createPost_unowned_media_404_cex :
    cexStore.readMedia "b" (some ("u1")) = none ∧
    ("b" : String) ∈ cexBody.media.getD [] ∧
    (createPost (some cexBody) "p1" "t" false cexStore).outcome = .fault := by
  decide

/-- C2 amended: whenever some referenced media id is missing or not owned,
no Post document is written and no create call is made; and if additionally
every owned id read before the first failing one has a blobName field, the
response is 404 identifying that failing id. -/
theorem createPost_unowned_media_404 (b : PostBody) (post_id now : String) (cf : Bool)
    (s : Store) (m : String) (hmem : m ∈ b.media.getD [])
    (hm : s.readMedia m b.userId = none) :
    ((createPost (some b) post_id now cf s).store = s ∧
      ∀ e ∈ (createPost (some b) post_id now cf s).calls, ∀ p, e ≠ Event.postCreate p) ∧
    (∀ pre rest, b.media.getD [] = pre ++ m :: rest →
      (∀ x ∈ pre, ∃ d bn, s.readMedia x b.userId = some d ∧ d.blobName = some bn) →
      (createPost (some b) post_id now cf s).outcome
        = .resp ⟨404, .text ("media not found or not owned by user: " ++ m)⟩) := by
  constructor
  · cases hml : mediaLoop s b.userId (b.media.getD []) with
    | mk r evs =>
      have hreads : ∀ e ∈ evs, ∃ i p, e = Event.mediaRead i p := by
        intro e he
        apply mediaLoop_calls_reads s b.userId (b.media.getD [])
        rw [hml]
        exact he
      cases r with
      | refs rs =>
        exact absurd (by rw [hml]) (mediaLoop_no_refs s b.userId (b.media.getD []) m hmem hm rs)
      | notFound m2 =>
        refine ⟨by simp [createPost, hml], ?_⟩
        intro e he p
        have he2 : e ∈ evs := by
          have hcalls : (createPost (some b) post_id now cf s).calls = evs := by
            simp [createPost, hml]
          rw [hcalls] at he
          exact he
        obtain ⟨i2, p2, rfl⟩ := hreads e he2
        simp
      | keyError =>
        refine ⟨by simp [createPost, hml], ?_⟩
        intro e he p
        have he2 : e ∈ evs := by
          have hcalls : (createPost (some b) post_id now cf s).calls = evs := by
            simp [createPost, hml]
          rw [hcalls] at he
          exact he
        obtain ⟨i2, p2, rfl⟩ := hreads e he2
        simp
  · intro pre rest hsplit hpre
    have hloop := mediaLoop_notFound_of s b.userId pre m rest hpre hm
    simp [createPost, hsplit, hloop]

def w2Body : PostBody :=
  { userId := some ("u9"), title := some ("T"), caption := none, media := some (["zz"]) }

theorem createPost_unowned_media_404_witness :
    (createPost (some w2Body) "p1" "t" false ⟨[], []⟩).outcome
      = .resp ⟨404, .text ("media not found or not owned by user: " ++ "zz")⟩ :=
  (createPost_unowned_media_404 w2Body "p1" "t" false ⟨[], []⟩ "zz"
    (by decide) (by decide)).2 [] [] rfl (by intro x hx; simp [w2Body] at hx)

/-- C3 counterexample: every referenced media id is owned by the user, yet no
Post with the snapshot shape is created: the owned document lacks blobName,
so the request dies as an unhandled fault and the post collection is left
unchanged. -/
theorem createPost_snapshot_cex :
    (∀ m ∈ cex3Body.media.getD [], ownedBy cexStore cex3Body.userId m = true) ∧
    (createPost (some cex3Body) "p1" "t" false cexStore).outcome = .fault ∧
    (createPost (some cex3Body) "p1" "t" false cexStore).store.posts = [] := by
  decide

/-- C3 amended: when every referenced media id is owned by the user and each
looked-up document carries a blobName field (and the fresh post id is unused,
with no create fault), createPost answers 201 with a Post whose media
sequence has the same length and order as the request's media sequence, each
element copied from the document looked up at creation time. -/
def snapPost (b : PostBody) (post_id now : String) (s : Store) : PostDoc :=
  { id := post_id, userId := b.userId, title := b.title, caption := b.caption.getD "",
    media := (b.media.getD []).map (snapshotRef s b.userId), createdAt := now }

theorem createPost_snapshot (b : PostBody) (post_id now : String) (s : Store)
    (h : ∀ m ∈ b.media.getD [], ∃ d bn, s.readMedia m b.userId = some d ∧ d.blobName = some bn)
    (hfresh : s.posts.any (fun p => p.id == post_id && p.userId == b.userId) = false) :
    (createPost (some b) post_id now false s).outcome
      = .resp ⟨201, .post (snapPost b post_id now s)⟩ ∧
    (createPost (some b) post_id now false s).store
      = { s with posts := s.posts ++ [snapPost b post_id now s] } ∧
    (snapPost b post_id now s).media = (b.media.getD []).map (snapshotRef s b.userId) ∧
    ((b.media.getD []).map (snapshotRef s b.userId)).length = (b.media.getD []).length ∧
    (∀ i, ∀ hi : i < (b.media.getD []).length, ∀ d : MediaDoc,
      s.readMedia ((b.media.getD []).get ⟨i, hi⟩) b.userId = some d →
      ((b.media.getD []).map (snapshotRef s b.userId)).get
          ⟨i, by rw [List.length_map]; exact hi⟩
        = { mediaId := d.id, blobName := d.blobName.getD "", contentType := d.contentType }) := by
  have hloop := mediaLoop_refs_of s b.userId (b.media.getD []) h
  refine ⟨?_, ?_, rfl, by simp, ?_⟩
  · simp [createPost, hloop, hfresh, snapPost]
  · simp [createPost, hloop, hfresh, snapPost]
  · intro i hi d hd
    rw [List.get_eq_getElem] at hd
    simp only [List.get_eq_getElem, List.getElem_map]
    simp [snapshotRef, hd]

def w3Body : PostBody :=
  { userId := some ("u1"), title := some ("T"), caption := none, media := some (["m1"]) }

theorem createPost_snapshot_witness :
    (createPost (some w3Body) "p1" "t9" false demoStore).outcome
      = .resp ⟨201, .post (snapPost w3Body "p1" "t9" demoStore)⟩ :=
  (createPost_snapshot w3Body "p1" "t9" demoStore
    (by
      intro m hm
      simp [w3Body] at hm
      subst hm
      exact ⟨demoMedia, "u1/m1-a.png", by decide, by decide⟩)
    (by decide)).1

/-- C9: when a referenced media document is read successfully but lacks the
blobName field (all earlier referenced documents being intact), the
subscript outside the 404 handler raises, the request fails as an unhandled
fault (generic 500 from the host, not 404), and no Post document is created
nor any create call made. -/
theorem createPost_missing_blobname_fault (b : PostBody) (post_id now : String) (cf : Bool)
    (s : Store) (pre : List String) (m : String) (rest : List String)
    (hsplit : b.media.getD [] = pre ++ m :: rest)
    (hpre : ∀ x ∈ pre, ∃ d bn, s.readMedia x b.userId = some d ∧ d.blobName = some bn)
    (d : MediaDoc) (hd : s.readMedia m b.userId = some d) (hbn : d.blobName = none) :
    (createPost (some b) post_id now cf s).outcome = .fault ∧
    (createPost (some b) post_id now cf s).store = s ∧
    ∀ e ∈ (createPost (some b) post_id now cf s).calls, ∀ p, e ≠ Event.postCreate p := by
  have hloop := mediaLoop_keyError_of s b.userId pre m rest hpre ⟨d, hd, hbn⟩
  refine ⟨by simp [createPost, hsplit, hloop], by simp [createPost, hsplit, hloop], ?_⟩
  intro e he p
  have hcalls : (createPost (some b) post_id now cf s).calls
      = pre.map (fun x => Event.mediaRead x b.userId) ++ [Event.mediaRead m b.userId] := by
    simp [createPost, hsplit, hloop]
  rw [hcalls] at he
  rcases List.mem_append.mp he with h2 | h2
  · obtain ⟨x, _, rfl⟩ := List.mem_map.mp h2
    simp
  · rw [List.mem_singleton] at h2
    subst h2
    simp

theorem createPost_missing_blobname_fault_witness :
    (createPost (some cex3Body) "p1" "t" false cexStore).outcome = .fault :=
  (createPost_missing_blobname_fault cex3Body "p1" "t" false cexStore
    [] "a" [] rfl (by intro x hx; simp at hx) cexBadDoc (by decide) rfl).1

/-- C7 counterexample: a syntactically valid JSON body with userId and title
absent but referencing an unknown media id is answered 404, not 201, and no
Post is created — the claim's universal 201 fails. -/
def w7BadBody : PostBody :=
  { userId := none, title := none, caption := none, media := some (["m1"]) }

theorem createPost_no_validation_cex :
    (createPost (some w7BadBody) "p1" "t" false ⟨[], []⟩).outcome
      = .resp ⟨404, .text ("media not found or not owned by user: m1")⟩ := by
  decide

/-- C7 amended: createPost never validates userId or title: a valid-JSON body
is never answered 400; and whenever the media checks pass — in particular
when the referenced media list is empty or absent — the Post is created with
null userId and title and the operation returns 201. -/
theorem createPost_no_400_null_fields :
    (∀ (b : PostBody) (post_id now : String) (cf : Bool) (s : Store) (r : Response),
      (createPost (some b) post_id now cf s).outcome = .resp r → r.status ≠ 400) ∧
    (∀ (b : PostBody) (post_id now : String) (s : Store),
      b.userId = none → b.title = none → b.media.getD [] = [] →
      s.posts.any (fun p => p.id == post_id && p.userId == b.userId) = false →
      (createPost (some b) post_id now false s).outcome
        = .resp ⟨201, .post (PostDoc.mk post_id none none (b.caption.getD "") [] now)⟩) := by
  constructor
  · intro b post_id now cf s r h
    cases hml : mediaLoop s b.userId (b.media.getD []) with
    | mk lr evs =>
      cases lr with
      | refs rs =>
        cases cf
        · cases hex : s.posts.any (fun p => p.id == post_id && p.userId == b.userId)
          · simp [createPost, hml, hex] at h
            rw [← h]
            simp
          · simp [createPost, hml, hex] at h
        · simp [createPost, hml] at h
      | notFound m2 =>
        simp [createPost, hml] at h
        rw [← h]
        simp
      | keyError => simp [createPost, hml] at h
  · intro b post_id now s huid htitle hmedia hfresh
    rw [huid] at hfresh
    have hloop : mediaLoop s none (b.media.getD []) = (.refs [], []) := by
      rw [hmedia]
      rfl
    simp [createPost, hloop, hfresh, huid, htitle]

def w7Body : PostBody :=
  { userId := none, title := none, caption := none, media := none }

theorem createPost_no_400_null_fields_witness :
    (createPost (some w7Body) "p1" "t" false ⟨[], []⟩).outcome
      = .resp ⟨201, .post (PostDoc.mk "p1" none none "" [] "t")⟩ :=
  createPost_no_400_null_fields.2 w7Body "p1" "t" ⟨[], []⟩ rfl rfl rfl (by decide)
